import Mathlib

/-!
Verification development for the tixgo template engine
(`modules/template`: domain entity, HTML template renderer, postgres
repository, render query handler).

The Go source is shallowly embedded: pure Go functions become Lean
functions; `time.Now()` becomes an explicit `now : Int` argument;
Go errors from the gox `syserr` package become an explicit `SysErr`
value carrying the error-code kind and message.  Strings are Lean
`String`s; the ASCII fragment of the Go `strings` helpers is modelled
character by character.
-/

namespace Tixgo

/-- Decidable equality of Except values, used to evaluate the embedded
operations on concrete inputs. -/
instance exceptDecEq {ε α : Type} [DecidableEq ε] [DecidableEq α] :
    DecidableEq (Except ε α) := fun x y =>
  match x, y with
  | .ok a, .ok b =>
    if h : a = b then .isTrue (congrArg Except.ok h)
    else .isFalse (fun hh => h (Except.ok.inj hh))
  | .error a, .error b =>
    if h : a = b then .isTrue (congrArg Except.error h)
    else .isFalse (fun hh => h (Except.error.inj hh))
  | .ok _, .error _ => .isFalse (fun hh => Except.noConfusion hh)
  | .error _, .ok _ => .isFalse (fun hh => Except.noConfusion hh)

/-! ### Error model (gox syserr codes used by the template module) -/

/-- Error-code kinds of the gox syserr package as used by the template
module sources. -/
inductive SysErrCode where
  | invalidArgument
  | notFound
  | conflict
  | forbidden
  | internal
deriving DecidableEq, Repr

/-- A gox syserr value: a code kind plus a message, as produced by
syserr.New / syserr.Wrap in the sources. -/
structure SysErr where
  code : SysErrCode
  message : String
deriving DecidableEq, Repr

/-- domain.ErrTemplateNotFound from the template domain errors file. -/
def ErrTemplateNotFound : SysErr := ⟨.notFound, "template not found"⟩

/-- domain.ErrTemplateInactive from the template domain errors file. -/
def ErrTemplateInactive : SysErr := ⟨.forbidden, "template is inactive"⟩

/-- domain.ErrTemplateAlreadyExists from the template domain errors file. -/
def ErrTemplateAlreadyExists : SysErr := ⟨.conflict, "template already exists"⟩

/-! ### ASCII string helpers (fragment of Go strings package) -/

/-- Lowercase one ASCII character (ASCII fragment of Go unicode.ToLower). -/
def asciiLowerChar (c : Char) : Char :=
  if 65 ≤ c.toNat ∧ c.toNat ≤ 90 then Char.ofNat (c.toNat + 32) else c

/-- Uppercase one ASCII character (ASCII fragment of Go unicode.ToUpper). -/
def asciiUpperChar (c : Char) : Char :=
  if 97 ≤ c.toNat ∧ c.toNat ≤ 122 then Char.ofNat (c.toNat - 32) else c

/-- ASCII fragment of Go strings.ToLower. -/
def goToLower (s : String) : String := ⟨s.data.map asciiLowerChar⟩

/-- ASCII fragment of Go strings.ToUpper. -/
def goToUpper (s : String) : String := ⟨s.data.map asciiUpperChar⟩

/-- Whitespace predicate of Go unicode.IsSpace restricted to Latin-1:
tab, newline, vertical tab, form feed, carriage return, space, NEL,
no-break space. -/
def isGoSpace (c : Char) : Bool :=
  c.toNat = 9 ∨ c.toNat = 10 ∨ c.toNat = 11 ∨ c.toNat = 12 ∨
  c.toNat = 13 ∨ c.toNat = 32 ∨ c.toNat = 133 ∨ c.toNat = 160

/-- Go strings.TrimSpace: strip leading and trailing whitespace. -/
def goTrimSpace (s : String) : String :=
  ⟨((s.data.dropWhile isGoSpace).reverse.dropWhile isGoSpace).reverse⟩

/-- Does the first list occur as a leading segment of the second? -/
def listPrefixEq : List Char → List Char → Bool
  | [], _ => true
  | _ :: _, [] => false
  | a :: as, b :: bs => a = b && listPrefixEq as bs

/-- Does `needle` occur as a contiguous segment of `hay`? -/
def listSubEq (needle : List Char) : List Char → Bool
  | [] => needle.isEmpty
  | hay@(_ :: rest) => listPrefixEq needle hay || listSubEq needle rest

/-- Go strings.Contains: substring containment. -/
def goContains (hay needle : String) : Bool := listSubEq needle.data hay.data

/-! ### Template entity (modules/template/domain/template.go) -/

/-- Template type constant TemplateTypeEmail. -/
def TemplateTypeEmail : String := "email"

/-- Template type constant TemplateTypeSMS. -/
def TemplateTypeSMS : String := "sms"

/-- Template type constant TemplateTypePush. -/
def TemplateTypePush : String := "push"

/-- Template status constant TemplateStatusActive. -/
def TemplateStatusActive : String := "active"

/-- Template status constant TemplateStatusInactive. -/
def TemplateStatusInactive : String := "inactive"

/-- Template status constant TemplateStatusDraft. -/
def TemplateStatusDraft : String := "draft"

/-- The Template aggregate root.  Field `typ` embeds the Go field
`Type` (a Go string-typed TemplateType); `status` embeds `Status`;
timestamps are abstract instants modelled as integers. -/
structure Template where
  id : Int
  name : String
  slug : String
  subject : String
  content : String
  typ : String
  status : String
  vars : List String
  description : String
  createdBy : Int
  createdAt : Int
  updatedAt : Int
deriving DecidableEq, Repr

/-- domain.IsValidTemplateType: membership in the three enumerated
template types. -/
def IsValidTemplateType (templateType : String) : Bool :=
  templateType = TemplateTypeEmail ∨ templateType = TemplateTypeSMS ∨
    templateType = TemplateTypePush

/-- domain.NewTemplate: validates the required fields and the type, and
on success returns a draft-status template with both timestamps set to
`now` (the single time.Now() call of the source). -/
def NewTemplate (name slug subject content : String) (templateType : String)
    (vars : List String) (description : String) (createdBy : Int)
    (now : Int) : Except SysErr Template :=
  if name = "" then .error ⟨.invalidArgument, "template name is required"⟩
  else if slug = "" then .error ⟨.invalidArgument, "template slug is required"⟩
  else if content = "" then .error ⟨.invalidArgument, "template content is required"⟩
  else if ¬ IsValidTemplateType templateType then
    .error ⟨.invalidArgument, "invalid template type"⟩
  else .ok
    { id := 0
      name := name
      slug := slug
      subject := subject
      content := content
      typ := templateType
      status := TemplateStatusDraft
      vars := vars
      description := description
      createdBy := createdBy
      createdAt := now
      updatedAt := now }

/-- Template.Activate: set status active, refresh updatedAt. -/
def Template.Activate (t : Template) (now : Int) : Template :=
  { t with status := TemplateStatusActive, updatedAt := now }

/-- Template.Deactivate: set status inactive, refresh updatedAt. -/
def Template.Deactivate (t : Template) (now : Int) : Template :=
  { t with status := TemplateStatusInactive, updatedAt := now }

/-- Template.Update: overwrite each string field only when the argument
is non-empty, overwrite vars only when non-nil (the Go nil slice is
`none`), and always refresh updatedAt. -/
def Template.Update (t : Template) (name subject content description : String)
    (vars : Option (List String)) (now : Int) : Template :=
  let t := if name ≠ "" then { t with name := name } else t
  let t := if subject ≠ "" then { t with subject := subject } else t
  let t := if content ≠ "" then { t with content := content } else t
  let t := if description ≠ "" then { t with description := description } else t
  let t := match vars with
    | some v => { t with vars := v }
    | none => t
  { t with updatedAt := now }

/-- Template.IsActive: status equals active. -/
def Template.IsActive (t : Template) : Bool := t.status = TemplateStatusActive

/-! ### Further Go strings helpers used by the renderer FuncMap -/

/-- Word-separator predicate of Go strings.Title (ASCII fragment):
everything except letters, digits and underscore separates words. -/
def goIsSeparator (c : Char) : Bool :=
  !(c.isAlpha || c.isDigit || c.toNat = 95)

/-- ASCII fragment of Go strings.Title: upcase a character whose
predecessor is a separator (the start of the string counts as one);
digits and underscores do not separate words. -/
def titleAux : Bool → List Char → List Char
  | _, [] => []
  | prevSep, c :: rest =>
    (if prevSep then asciiUpperChar c else c) :: titleAux (goIsSeparator c) rest

/-- ASCII fragment of Go strings.Title. -/
def goTitle (s : String) : String := ⟨titleAux true s.data⟩

/-- Replace every occurrence of a non-empty pattern, scanning left to
right (Go strings.ReplaceAll with non-empty old). -/
def replaceAllAux : Nat → List Char → List Char → List Char → List Char
  | 0, s, _, _ => s
  | fuel + 1, s, old, new =>
    match s with
    | [] => []
    | c :: rest =>
      if listPrefixEq old s then new ++ replaceAllAux fuel (s.drop old.length) old new
      else c :: replaceAllAux fuel rest old new

/-- Go strings.ReplaceAll; an empty old-string inserts the replacement
before every character and at the end, as in Go. -/
def goReplaceAll (s old new : String) : String :=
  if old = "" then
    ⟨new.data ++ s.data.foldr (fun c acc => c :: (new.data ++ acc)) []⟩
  else ⟨replaceAllAux (s.data.length + 1) s.data old.data new.data⟩

/-! ### Renderer value model

The renderer passes a map of string keys to dynamically typed values
into Go html/template.  The fragment of values the template module
exercises: plain strings, the template.HTML and template.URL marker
types produced by safeHTML/safeURL, booleans and the untyped nil that a
missing map key yields. -/

/-- A dynamically typed template value. -/
inductive TValue where
  | str (s : String)
  | html (s : String)
  | url (s : String)
  | bool (b : Bool)
  | nil
deriving DecidableEq, Repr

/-- The variable map passed to Render, as an association list. -/
abbrev VarMap := List (String × TValue)

/-- Look a key up in the variable map; a missing key is the untyped nil
that Go's map indexing produces inside template execution. -/
def lookupVar (vars : VarMap) (k : String) : TValue :=
  match vars.find? (fun p => p.1 == k) with
  | some p => p.2
  | none => .nil

/-! ### Template text model (fragment of Go html/template)

The renderer delegates parsing and execution to Go html/template with a
fixed nine-function FuncMap.  The embedding covers the placeholder
fragment the template module's spec and tests exercise: literal text,
simple field interpolation, quoted string literals and helper-function
application.  Escaping is modelled for interpolation in HTML text
context (the context all claim inputs use). -/

/-- Opening brace character. -/
def lbraceChar : Char := Char.ofNat 123

/-- Closing brace character. -/
def rbraceChar : Char := Char.ofNat 125

/-- Double-quote character. -/
def dquoteChar : Char := Char.ofNat 34

/-- Dot character. -/
def dotChar : Char := Char.ofNat 46

/-- An argument of a template action: a field reference or a quoted
string literal. -/
inductive Arg where
  | field (name : String)
  | lit (s : String)
deriving DecidableEq, Repr

/-- A template action: a bare interpolation or a helper-function
application. -/
inductive Action where
  | interp (a : Arg)
  | call (fn : String) (args : List Arg)
deriving DecidableEq, Repr

/-- A parsed template node: literal text or an action. -/
inductive Node where
  | text (s : String)
  | action (a : Action)
deriving DecidableEq, Repr

/-- Scan to the first action opener, returning the text before it and
the remainder after it when one occurs. -/
def splitAtOpen : List Char → List Char × Option (List Char)
  | [] => ([], none)
  | c :: rest =>
    if c = lbraceChar then
      match rest with
      | c2 :: rest2 =>
        if c2 = lbraceChar then ([], some rest2)
        else
          let p := splitAtOpen rest
          (c :: p.1, p.2)
      | [] => ([c], none)
    else
      let p := splitAtOpen rest
      (c :: p.1, p.2)

/-- Scan to the action closer, returning the action text and the
remainder; an unterminated action is a syntax error. -/
def splitAtClose : List Char → Option (List Char × List Char)
  | [] => none
  | c :: rest =>
    if c = rbraceChar then
      match rest with
      | c2 :: rest2 =>
        if c2 = rbraceChar then some ([], rest2)
        else (splitAtClose rest).map (fun p => (c :: p.1, p.2))
      | [] => none
    else (splitAtClose rest).map (fun p => (c :: p.1, p.2))

/-- Identifier characters of template field and function names. -/
def isIdentChar (c : Char) : Bool := c.isAlphanum || c.toNat = 95

/-- Split a leading identifier run off a character list. -/
def spanIdent : List Char → List Char × List Char
  | [] => ([], [])
  | c :: rest =>
    if isIdentChar c then
      let p := spanIdent rest
      (c :: p.1, p.2)
    else ([], c :: rest)

/-- Read a quoted string literal up to its closing quote. -/
def readLit : List Char → Option (List Char × List Char)
  | [] => none
  | c :: rest =>
    if c = dquoteChar then some ([], rest)
    else (readLit rest).map (fun p => (c :: p.1, p.2))

/-- A token of an action: a field reference, a string literal or a bare
identifier (function name). -/
inductive Tok where
  | fieldTok (s : String)
  | litTok (s : String)
  | identTok (s : String)
deriving DecidableEq, Repr

/-- Tokenize the inside of an action. -/
def tokenizeAux : Nat → List Char → Option (List Tok)
  | 0, _ => none
  | fuel + 1, cs =>
    match cs with
    | [] => some []
    | c :: rest =>
      if isGoSpace c then tokenizeAux fuel rest
      else if c = dotChar then
        match spanIdent rest with
        | ([], _) => none
        | (name, r) => (tokenizeAux fuel r).map (fun ts => .fieldTok ⟨name⟩ :: ts)
      else if c = dquoteChar then
        match readLit rest with
        | none => none
        | some (lit, r) => (tokenizeAux fuel r).map (fun ts => .litTok ⟨lit⟩ :: ts)
      else if isIdentChar c then
        match spanIdent rest with
        | (name, r) => (tokenizeAux fuel r).map (fun ts => .identTok ⟨c :: name⟩ :: ts)
      else none

/-- The names of the renderer's fixed FuncMap, identical across
ValidateTemplate, renderText and renderHTML in the source. -/
def helperNames : List String :=
  ["upper", "lower", "title", "trim", "contains", "replace", "default",
   "safeHTML", "safeURL"]

/-- Interpret a token as a function argument. -/
def tokToArg : Tok → Option Arg
  | .fieldTok s => some (.field s)
  | .litTok s => some (.lit s)
  | .identTok _ => none

/-- Parse one action body.  A function name must be in the FuncMap at
parse time (as in Go); arity is only checked at execution time. -/
def parseAction (cs : List Char) : Option Action := do
  let toks ← tokenizeAux (cs.length + 1) cs
  match toks with
  | .identTok fn :: rest =>
    if fn ∈ helperNames then do
      let args ← rest.mapM tokToArg
      pure (.call fn args)
    else none
  | [.fieldTok f] => pure (.interp (.field f))
  | [.litTok s] => pure (.interp (.lit s))
  | _ => none

/-- Prepend a text node when the scanned text is non-empty. -/
def textCons (txt : List Char) (ns : List Node) : List Node :=
  if txt.isEmpty then ns else .text ⟨txt⟩ :: ns

/-- Parse a whole template string into nodes. -/
def parseNodesAux : Nat → List Char → Option (List Node)
  | 0, _ => none
  | fuel + 1, cs =>
    match splitAtOpen cs with
    | (txt, none) => some (textCons txt [])
    | (txt, some rest) =>
      match splitAtClose rest with
      | none => none
      | some (act, rest2) =>
        match parseAction act with
        | none => none
        | some a => (parseNodesAux fuel rest2).map (fun ns => textCons txt (.action a :: ns))

/-- Parse a template string, as the shared Parse step of
ValidateTemplate, renderText and renderHTML. -/
def parseTemplate (s : String) : Option (List Node) :=
  parseNodesAux (s.data.length + 1) s.data

/-- Evaluate a function argument against the variable map. -/
def evalArg (vars : VarMap) : Arg → TValue
  | .field f => lookupVar vars f
  | .lit s => .str s

/-- Convert a value to a Go string parameter; nil and bool are not
assignable to string, which Go template execution reports as an error. -/
def asString : TValue → Option String
  | .str s => some s
  | .html s => some s
  | .url s => some s
  | _ => none

/-- Apply one FuncMap helper to evaluated arguments; `none` is a Go
template execution error (wrong arity or unassignable argument).  The
default helper takes interface-typed parameters, so it accepts nil and
returns the fallback exactly when the value is nil or the empty
string. -/
def applyFn : String → List TValue → Option TValue
  | "upper", [v] => (asString v).map (fun s => .str (goToUpper s))
  | "lower", [v] => (asString v).map (fun s => .str (goToLower s))
  | "title", [v] => (asString v).map (fun s => .str (goTitle s))
  | "trim", [v] => (asString v).map (fun s => .str (goTrimSpace s))
  | "contains", [a, b] => do
    let sa ← asString a
    let sb ← asString b
    pure (.bool (goContains sa sb))
  | "replace", [a, b, c] => do
    let sa ← asString a
    let sb ← asString b
    let sc ← asString c
    pure (.str (goReplaceAll sa sb sc))
  | "default", [d, v] => some (if v = .nil ∨ v = .str "" then d else v)
  | "safeHTML", [v] => (asString v).map (fun s => .html s)
  | "safeURL", [v] => (asString v).map (fun s => .url s)
  | _, _ => none

/-- One HTML entity escape step of the html/template HTML-text-context
escaper. -/
def escapeHTMLChar (c : Char) : String :=
  if c.toNat = 60 then "&lt;"
  else if c.toNat = 62 then "&gt;"
  else if c.toNat = 38 then "&amp;"
  else if c.toNat = 34 then "&#34;"
  else if c.toNat = 39 then "&#39;"
  else String.singleton c

/-- html/template HTML-text-context escaping of a string. -/
def escapeHTML (s : String) : String := String.join (s.data.map escapeHTMLChar)

/-- Print an interpolated value in HTML text context: nil prints as the
empty string, template.HTML passes through unescaped, and everything
else is HTML-escaped. -/
def stringifyEscaped : TValue → String
  | .nil => ""
  | .str s => escapeHTML s
  | .html s => s
  | .url s => escapeHTML s
  | .bool b => escapeHTML (if b then "true" else "false")

/-- Execute one node; `none` is an execution error. -/
def execNode (vars : VarMap) : Node → Option String
  | .text s => some s
  | .action (.interp a) => some (stringifyEscaped (evalArg vars a))
  | .action (.call fn args) =>
    (applyFn fn (args.map (evalArg vars))).map stringifyEscaped

/-- Execute a node list, concatenating the output. -/
def execNodes (vars : VarMap) : List Node → Option String
  | [] => some ""
  | n :: ns => do
    let s ← execNode vars n
    let r ← execNodes vars ns
    pure (s ++ r)

/-- Which stage of a render step failed. -/
inductive RenderStageErr where
  | parseErr
  | execErr
deriving DecidableEq, Repr

/-- renderText of the HTML template renderer: empty template
short-circuits to the empty string; otherwise parse with the FuncMap,
execute with the variable map, and trim surrounding whitespace from the
result.  The source builds this template with html/template, so its
output is escaped exactly like renderHTML's. -/
def renderText (s : String) (vars : VarMap) : Except RenderStageErr String :=
  if s = "" then .ok ""
  else
    match parseTemplate s with
    | none => .error .parseErr
    | some ns =>
      match execNodes vars ns with
      | none => .error .execErr
      | some out => .ok (goTrimSpace out)

/-- renderHTML of the HTML template renderer: empty template
short-circuits to the empty string; otherwise parse with the FuncMap and
execute with the variable map, returning the buffer contents as-is. -/
def renderHTML (s : String) (vars : VarMap) : Except RenderStageErr String :=
  if s = "" then .ok ""
  else
    match parseTemplate s with
    | none => .error .parseErr
    | some ns =>
      match execNodes vars ns with
      | none => .error .execErr
      | some out => .ok out

/-- ValidateTemplate: parse the content with the same FuncMap without
executing it; a parse failure is wrapped as an InvalidArgument template
syntax error. -/
def validateTemplate (content : String) : Except SysErr Unit :=
  match parseTemplate content with
  | none => .error ⟨.invalidArgument, "template syntax error"⟩
  | some _ => .ok ()

/-- domain.RenderedTemplate: the value a render produces. -/
structure RenderedTemplate where
  subject : String
  content : String
  contentType : String
deriving DecidableEq, Repr

/-- A Render failure: which of the two render steps failed, wrapped by
the source as an Internal-kind error with the corresponding message. -/
inductive RenderError where
  | subjectErr (k : RenderStageErr)
  | contentErr (k : RenderStageErr)
deriving DecidableEq, Repr

/-- Render of the HTML template renderer: replace a nil variable map
with an empty one, render the subject through renderText and the
content through renderHTML, and return the pair with content type
text/html. -/
def Render (t : Template) (variables? : Option VarMap) :
    Except RenderError RenderedTemplate :=
  let vars := variables?.getD []
  match renderText t.subject vars with
  | .error k => .error (.subjectErr k)
  | .ok subj =>
    match renderHTML t.content vars with
    | .error k => .error (.contentErr k)
    | .ok cont => .ok ⟨subj, cont, "text/html"⟩

/-! ### Render query handler (template app query layer) -/

/-- query.RenderTemplateQuery: target by id or slug plus the variable
map. -/
structure RenderTemplateQuery where
  templateID : Option Int
  templateSlug : Option String
  variables? : Option VarMap

/-- query.RenderTemplateResult. -/
structure RenderTemplateResult where
  subject : String
  content : String
  contentType : String
  templateID : Int
deriving DecidableEq, Repr

/-- The handler body after the repository lookup: propagate
ErrTemplateNotFound as-is, wrap any other lookup failure as Internal,
refuse a non-active template with ErrTemplateInactive, and only then
invoke the injected renderer, wrapping its failure as Internal. -/
def afterLookup (render : Template → Option VarMap → Except RenderError RenderedTemplate)
    (variables? : Option VarMap) (res : Except SysErr Template) :
    Except SysErr RenderTemplateResult :=
  match res with
  | .error e =>
    if e = ErrTemplateNotFound then .error e
    else .error ⟨.internal, "failed to get template"⟩
  | .ok t =>
    if ¬ t.IsActive then .error ErrTemplateInactive
    else
      match render t variables? with
      | .error _ => .error ⟨.internal, "failed to render template"⟩
      | .ok r => .ok ⟨r.subject, r.content, r.contentType, t.id⟩

/-- RenderTemplateHandler.Handle: look the template up by id when one
is given, otherwise by slug, otherwise fail with InvalidArgument; the
repository and renderer are the injected dependencies. -/
def handleRenderTemplate (getByID : Int → Except SysErr Template)
    (getBySlug : String → Except SysErr Template)
    (render : Template → Option VarMap → Except RenderError RenderedTemplate)
    (q : RenderTemplateQuery) : Except SysErr RenderTemplateResult :=
  match q.templateID, q.templateSlug with
  | none, none =>
    .error ⟨.invalidArgument, "either template_id or template_slug must be provided"⟩
  | some tid, _ => afterLookup render q.variables? (getByID tid)
  | none, some slug => afterLookup render q.variables? (getBySlug slug)

/-! ### Postgres repository model (template_postgres.go)

The store is modelled as the list of template rows; each SQL statement
becomes the corresponding pure transformation of that list. -/

/-- The gox pagination paging value carried through List.

Modelled from the spec: the external gox pagination package supplies a
page/limit/total structure whose offset accessor is the standard
offset-based window start (page - 1) * limit. -/
structure Paging where
  page : Nat
  limit : Nat
  total : Nat
deriving DecidableEq, Repr

/-- Paging.GetOffset of the gox pagination package.  The Nat
subtraction coincides with the library's (page - 1) * limit for every
page of at least 1; a zero page, which the library would turn into a
negative offset that the real LIMIT/OFFSET query rejects, is outside
the modelled domain, so statements about List carry a page lower
bound. -/
def Paging.getOffset (p : Paging) : Nat := (p.page - 1) * p.limit

/-- domain.ListTemplateFilters. -/
structure ListTemplateFilters where
  type? : Option String
  status? : Option String
  createdBy? : Option Int
  search : String

/-- ASCII-case-insensitive substring containment: the claim-side
reading of the search filter ("matched case-insensitively as a
substring"). -/
def ilikeSub (hay pat : String) : Bool :=
  goContains (goToLower hay) (goToLower pat)

/-- Case-insensitive character comparison (ASCII fragment), the literal
comparison step of ILIKE. -/
def charCIEq (a b : Char) : Bool := asciiLowerChar a = asciiLowerChar b

/-- The three characters that are special inside a LIKE pattern:
percent (37), underscore (95) and the backslash escape (92). -/
def isLikeWildcard (c : Char) : Bool :=
  c.toNat = 37 || c.toNat = 95 || c.toNat = 92

/-- A search term containing no LIKE wildcard or escape character. -/
def wildcardFree (s : String) : Bool := s.data.all (fun c => !(isLikeWildcard c))

/-- SQL LIKE pattern matching against a text, with case-insensitive
literal comparison (ILIKE): percent matches any sequence, underscore
matches exactly one character, a backslash escapes the next pattern
character (a pattern ending in a bare backslash, an error in Postgres,
matches nothing).  Fuel bounds the recursion; each step shortens the
pattern or the text, so pattern length plus text length plus two
always suffices. -/
def likeMatchAux : Nat → List Char → List Char → Bool
  | 0, _, _ => false
  | fuel + 1, pat, text =>
    match pat with
    | [] => text.isEmpty
    | p :: ps =>
      if p.toNat = 37 then
        likeMatchAux fuel ps text ||
          (match text with
           | [] => false
           | _ :: text2 => likeMatchAux fuel (p :: ps) text2)
      else if p.toNat = 95 then
        match text with
        | [] => false
        | _ :: text2 => likeMatchAux fuel ps text2
      else if p.toNat = 92 then
        match ps with
        | [] => false
        | q :: ps2 =>
          match text with
          | [] => false
          | c :: text2 => charCIEq q c && likeMatchAux fuel ps2 text2
      else
        match text with
        | [] => false
        | c :: text2 => charCIEq p c && likeMatchAux fuel ps text2

/-- Postgres ILIKE: match the whole text against the pattern,
case-insensitively. -/
def goILike (hay pat : String) : Bool :=
  likeMatchAux (pat.data.length + hay.data.length + 2) pat.data hay.data

/-- The SQL search condition List builds for one column:
column ILIKE the percent-wrapped caller-supplied search term. -/
def ilikeCond (col search : String) : Bool := goILike col ("%" ++ search ++ "%")

/-- The WHERE-clause condition list that List builds, one predicate per
appended SQL condition, in source order. -/
def listConds (f : ListTemplateFilters) : List (Template → Bool) :=
  (match f.type? with
    | some ty => [fun t => t.typ == ty]
    | none => []) ++
  (match f.status? with
    | some st => [fun t => t.status == st]
    | none => []) ++
  (match f.createdBy? with
    | some cb => [fun t => t.createdBy == cb]
    | none => []) ++
  (if f.search = "" then []
   else [fun t => ilikeCond t.name f.search || ilikeCond t.description f.search ||
                  ilikeCond t.slug f.search])

/-- The conjunction of the built WHERE conditions. -/
def wherePred (f : ListTemplateFilters) (t : Template) : Bool :=
  (listConds f).all (fun c => c t)

/-- The descending creation-time order of the ORDER BY clause. -/
def createdDesc (a b : Template) : Prop := b.createdAt ≤ a.createdAt

instance : DecidableRel createdDesc := fun a b =>
  inferInstanceAs (Decidable (b.createdAt ≤ a.createdAt))

/-- List of the postgres repository: run the count query over the WHERE
predicate and store it into the caller's paging value, then run the
main query, which filters by the same predicate, orders by creation
time descending and applies the LIMIT/OFFSET window. -/
def listTemplates (db : List Template) (f : ListTemplateFilters) (paging : Paging) :
    List Template × Paging :=
  let total := (db.filter (wherePred f)).length
  let paging2 := { paging with total := total }
  let rows := ((List.insertionSort createdDesc (db.filter (wherePred f))).drop
      paging.getOffset).take paging.limit
  (rows, paging2)

/-- One row as rewritten by the repository Update statement's SET list:
name, subject, content, status, variables, description and updated_at
come from the aggregate, every other column keeps the stored value. -/
def updateRowSet (t : Template) (now : Int) (row : Template) : Template :=
  { row with
    name := t.name
    subject := t.subject
    content := t.content
    status := t.status
    vars := t.vars
    description := t.description
    updatedAt := now }

/-- Update of the postgres repository: overwrite the aggregate's
UpdatedAt with the current time, execute the UPDATE keyed by id, and
report NotFound when no row was affected. -/
def repoUpdate (db : List Template) (t : Template) (now : Int) :
    List Template × Template × Except SysErr Unit :=
  let t2 := { t with updatedAt := now }
  let db2 := db.map (fun row => if row.id == t2.id then updateRowSet t2 now row else row)
  let affected := db.countP (fun row => row.id == t2.id)
  (db2, t2, if affected = 0 then .error ErrTemplateNotFound else .ok ())

/-! ## Theorems -/

/-- Concatenate a list of strings. -/
def strConcat : List String → String
  | [] => ""
  | s :: rest => s ++ strConcat rest

/-- The raw execution output of one render step: parse, then execute
against the variable map. -/
def execOutput (s : String) (vars : VarMap) : Option String :=
  (parseTemplate s).bind (execNodes vars)

/-- renderText on a parsed non-empty template reduces to execution
followed by trimming. -/
theorem renderText_parsed {s : String} {ns : List Node} (hne : s ≠ "")
    (hp : parseTemplate s = some ns) (vars : VarMap) :
    renderText s vars =
      match execNodes vars ns with
      | none => .error .execErr
      | some out => .ok (goTrimSpace out) := by
  unfold renderText
  rw [if_neg hne, hp]

/-- renderHTML on a parsed non-empty template reduces to execution. -/
theorem renderHTML_parsed {s : String} {ns : List Node} (hne : s ≠ "")
    (hp : parseTemplate s = some ns) (vars : VarMap) :
    renderHTML s vars =
      match execNodes vars ns with
      | none => .error .execErr
      | some out => .ok out := by
  unfold renderHTML
  rw [if_neg hne, hp]

/-- A successful renderText run is the trimmed raw execution output. -/
theorem renderText_ok {s : String} {vars : VarMap} {out : String}
    (h : renderText s vars = .ok out) :
    ∃ raw, execOutput s vars = some raw ∧ out = goTrimSpace raw := by
  by_cases hs : s = ""
  · subst hs
    unfold renderText at h
    simp at h
    exact ⟨"", rfl, by simp [← h]; rfl⟩
  · cases hp : parseTemplate s with
    | none => unfold renderText at h; rw [if_neg hs, hp] at h; simp at h
    | some ns =>
      rw [renderText_parsed hs hp] at h
      cases he : execNodes vars ns with
      | none => rw [he] at h; simp at h
      | some o =>
        rw [he] at h
        simp at h
        exact ⟨o, by simp [execOutput, hp, he], h.symm⟩

/-- A successful renderHTML run is the raw execution output as-is. -/
theorem renderHTML_ok {s : String} {vars : VarMap} {out : String}
    (h : renderHTML s vars = .ok out) :
    execOutput s vars = some out := by
  by_cases hs : s = ""
  · subst hs
    unfold renderHTML at h
    simp at h
    simp [execOutput, ← h]
    rfl
  · cases hp : parseTemplate s with
    | none => unfold renderHTML at h; rw [if_neg hs, hp] at h; simp at h
    | some ns =>
      rw [renderHTML_parsed hs hp] at h
      cases he : execNodes vars ns with
      | none => rw [he] at h; simp at h
      | some o =>
        rw [he] at h
        simp at h
        simp [execOutput, hp, he, h]

/-- A successful Render run decomposes into its two render steps. -/
theorem Render_ok {t : Template} {variables? : Option VarMap} {r : RenderedTemplate}
    (h : Render t variables? = .ok r) :
    renderText t.subject (variables?.getD []) = .ok r.subject ∧
    renderHTML t.content (variables?.getD []) = .ok r.content ∧
    r.contentType = "text/html" := by
  simp only [Render] at h
  cases hs : renderText t.subject (variables?.getD []) with
  | error k => rw [hs] at h; simp at h
  | ok subj =>
    rw [hs] at h
    cases hh : renderHTML t.content (variables?.getD []) with
    | error k => rw [hh] at h; simp at h
    | ok cont =>
      rw [hh] at h
      simp at h
      subst h
      exact ⟨rfl, rfl, rfl⟩

/-- C1 (code evidence): the source builds the subject template with
html/template (the adapters file imports html/template only), so an
interpolated value in the subject IS HTML-escaped.  The subject
template Hi followed by the .V placeholder, with V bound to a bold tag,
renders to the entity-escaped form; the raw tag does not occur in the
output while the escaped form does — contradicting the plain-text
no-escaping subject rendering stated by the spec and by renderText's
own source comment. -/
theorem c1_subject_is_escaped :
    renderText "Hi \x7b\x7b.V\x7d\x7d" [("V", .str "<b>x</b>")] =
      .ok "Hi &lt;b&gt;x&lt;/b&gt;" ∧
    goContains "Hi &lt;b&gt;x&lt;/b&gt;" "<b>x</b>" = false ∧
    goContains "Hi &lt;b&gt;x&lt;/b&gt;" "&lt;b&gt;x&lt;/b&gt;" = true := by
  refine ⟨?_, by decide, by decide⟩
  rw [renderText_parsed (by decide)
    (show parseTemplate "Hi \x7b\x7b.V\x7d\x7d" =
      some [.text "Hi ", .action (.interp (.field "V"))] from rfl)]
  rfl

/-- The safeHTML helper wraps a string value in the unescaped-HTML
marker type. -/
theorem applyFn_safeHTML (s : String) :
    applyFn "safeHTML" [.str s] = some (.html s) := rfl

/-- C4: with V bound to a bold tag, rendering the content paragraph
with a bare .V interpolation escapes the HTML-special characters, while
passing V through safeHTML preserves the raw tag. -/
theorem c4_content_escaping (vars : VarMap)
    (h : lookupVar vars "V" = .str "<b>hi</b>") :
    renderHTML "<p>\x7b\x7b.V\x7d\x7d</p>" vars = .ok "<p>&lt;b&gt;hi&lt;/b&gt;</p>" ∧
    renderHTML "<p>\x7b\x7bsafeHTML .V\x7d\x7d</p>" vars = .ok "<p><b>hi</b></p>" := by
  constructor
  · rw [renderHTML_parsed (by decide)
      (show parseTemplate "<p>\x7b\x7b.V\x7d\x7d</p>" =
        some [.text "<p>", .action (.interp (.field "V")), .text "</p>"] by decide)]
    simp [execNodes, execNode, evalArg, h, stringifyEscaped]
    decide
  · rw [renderHTML_parsed (by decide)
      (show parseTemplate "<p>\x7b\x7bsafeHTML .V\x7d\x7d</p>" =
        some [.text "<p>", .action (.call "safeHTML" [.field "V"]), .text "</p>"] by decide)]
    simp [execNodes, execNode, evalArg, h, applyFn_safeHTML, stringifyEscaped]

/-- Witness for C4 at the concrete singleton variable map. -/
theorem c4_content_escaping_witness :
    lookupVar [("V", .str "<b>hi</b>")] "V" = .str "<b>hi</b>" ∧
    renderHTML "<p>\x7b\x7b.V\x7d\x7d</p>" [("V", .str "<b>hi</b>")] =
      .ok "<p>&lt;b&gt;hi&lt;/b&gt;</p>" ∧
    renderHTML "<p>\x7b\x7bsafeHTML .V\x7d\x7d</p>" [("V", .str "<b>hi</b>")] =
      .ok "<p><b>hi</b></p>" := by
  have h := c4_content_escaping [("V", .str "<b>hi</b>")] (by decide)
  exact ⟨by decide, h.1, h.2⟩

/-- C5: when ValidateTemplate accepts a content string, Render on a
template carrying that content never fails with a parse error of the
content render step (it can only fail there at execution time). -/
theorem c5_validate_render_roundtrip (c : String) (t : Template)
    (variables? : Option VarMap)
    (hv : validateTemplate c = .ok ()) (hc : t.content = c) :
    Render t variables? ≠ .error (.contentErr .parseErr) := by
  intro h
  unfold validateTemplate at hv
  cases hp : parseTemplate c with
  | none => rw [hp] at hv; simp at hv
  | some ns =>
    simp only [Render] at h
    cases hs : renderText t.subject (variables?.getD []) with
    | error k => rw [hs] at h; simp at h
    | ok subj =>
      rw [hs] at h
      cases hh : renderHTML t.content (variables?.getD []) with
      | error k =>
        rw [hh] at h
        simp at h
        subst h
        by_cases hce : t.content = ""
        · unfold renderHTML at hh
          rw [if_pos hce] at hh
          simp at hh
        · rw [renderHTML_parsed hce (hc ▸ hp) (variables?.getD [])] at hh
          cases he : execNodes (variables?.getD []) ns with
          | none => rw [he] at hh; simp at hh
          | some o => rw [he] at hh; simp at hh
      | ok cont => rw [hh] at h; simp at h

/-- Witness for C5: a concrete validated content on which Render does
not fail with a content parse error. -/
theorem c5_validate_render_roundtrip_witness :
    validateTemplate "<h1>Hello \x7b\x7b.Name\x7d\x7d</h1>" = .ok () ∧
    Render { id := 0, name := "n", slug := "s", subject := "",
             content := "<h1>Hello \x7b\x7b.Name\x7d\x7d</h1>", typ := "email",
             status := "active", vars := [], description := "",
             createdBy := 0, createdAt := 0, updatedAt := 0 } none ≠
      .error (.contentErr .parseErr) :=
  ⟨rfl, c5_validate_render_roundtrip "<h1>Hello \x7b\x7b.Name\x7d\x7d</h1>" _ none rfl rfl⟩

/-- C8: every successful Render returns the content exactly as the raw
execution output (no trimming) and the subject as the raw execution
output with surrounding whitespace trimmed; an empty subject or content
template string renders to the empty string without error. -/
theorem c8_trim_asymmetry :
    (∀ (t : Template) (variables? : Option VarMap) (r : RenderedTemplate),
      Render t variables? = .ok r →
      ∃ rawS rawC, execOutput t.subject (variables?.getD []) = some rawS ∧
        execOutput t.content (variables?.getD []) = some rawC ∧
        r.subject = goTrimSpace rawS ∧ r.content = rawC) ∧
    (∀ vars : VarMap, renderText "" vars = .ok "" ∧ renderHTML "" vars = .ok "") := by
  constructor
  · intro t variables? r h
    obtain ⟨hs, hh, -⟩ := Render_ok h
    obtain ⟨rawS, hS, hTrim⟩ := renderText_ok hs
    exact ⟨rawS, r.content, hS, renderHTML_ok hh, hTrim, rfl⟩
  · intro vars
    exact ⟨rfl, rfl⟩

/-- Witness for C8: a concrete successful Render whose subject is
trimmed and whose content is the raw output. -/
theorem c8_trim_asymmetry_witness :
    ∃ rawS rawC,
      execOutput "  Hi \x7b\x7b.V\x7d\x7d  " [] = some rawS ∧
      execOutput " <p>x</p> " [] = some rawC ∧
      "Hi" = goTrimSpace rawS ∧ " <p>x</p> " = rawC :=
  c8_trim_asymmetry.1
    { id := 0, name := "n", slug := "s", subject := "  Hi \x7b\x7b.V\x7d\x7d  ",
      content := " <p>x</p> ", typ := "email", status := "active", vars := [],
      description := "", createdBy := 0, createdAt := 0, updatedAt := 0 }
    none ⟨"Hi", " <p>x</p> ", "text/html"⟩ rfl

/-- C2: for every input tuple, the constructor fails with an
InvalidArgument error if and only if name, slug or content is empty or
the type is not one of email, sms, push; in every other case it
succeeds and the returned template has status draft with createdAt and
updatedAt both set to the current time (and the input fields stored
verbatim). -/
theorem c2_newTemplate_validation
    (name slug subject content templateType : String) (vars : List String)
    (description : String) (createdBy now : Int) :
    match NewTemplate name slug subject content templateType vars description createdBy now with
    | .error e =>
      (name = "" ∨ slug = "" ∨ content = "" ∨ IsValidTemplateType templateType = false) ∧
        e.code = .invalidArgument
    | .ok t =>
      name ≠ "" ∧ slug ≠ "" ∧ content ≠ "" ∧ IsValidTemplateType templateType = true ∧
        t.status = TemplateStatusDraft ∧ t.createdAt = now ∧ t.updatedAt = now ∧
        t.name = name ∧ t.slug = slug ∧ t.subject = subject ∧ t.content = content ∧
        t.typ = templateType ∧ t.vars = vars ∧ t.description = description ∧
        t.createdBy = createdBy := by
  unfold NewTemplate
  split_ifs with h1 h2 h3 h4 <;> simp_all

/-- Witness for C2 at the spec's concrete scenario input. -/
theorem c2_newTemplate_validation_witness :
    ∃ t, NewTemplate "Welcome" "welcome-email" "Welcome!" "<h1>Hello</h1>" "email"
        ["Name"] "" 1 7 = .ok t ∧
      t.status = TemplateStatusDraft ∧ t.createdAt = 7 ∧ t.updatedAt = 7 := by
  have h := c2_newTemplate_validation "Welcome" "welcome-email" "Welcome!"
    "<h1>Hello</h1>" "email" ["Name"] "" 1 7
  exact ⟨_, rfl, h.2.2.2.2.1, h.2.2.2.2.2.1, h.2.2.2.2.2.2.1⟩

/-- C6: Update overwrites each string field exactly when the argument
is non-empty, overwrites the variables exactly when the argument is
non-nil, leaves id, slug, type, status, createdBy and createdAt
unchanged, refreshes updatedAt on every call, and consequently a
non-empty subject can never be cleared to empty. -/
theorem c6_update_field_semantics (t : Template) (name subject content description : String)
    (vars? : Option (List String)) (now : Int) :
    (t.Update name subject content description vars? now).name =
        (if name = "" then t.name else name) ∧
    (t.Update name subject content description vars? now).subject =
        (if subject = "" then t.subject else subject) ∧
    (t.Update name subject content description vars? now).content =
        (if content = "" then t.content else content) ∧
    (t.Update name subject content description vars? now).description =
        (if description = "" then t.description else description) ∧
    (t.Update name subject content description vars? now).vars =
        (match vars? with | some v => v | none => t.vars) ∧
    (t.Update name subject content description vars? now).id = t.id ∧
    (t.Update name subject content description vars? now).slug = t.slug ∧
    (t.Update name subject content description vars? now).typ = t.typ ∧
    (t.Update name subject content description vars? now).status = t.status ∧
    (t.Update name subject content description vars? now).createdBy = t.createdBy ∧
    (t.Update name subject content description vars? now).createdAt = t.createdAt ∧
    (t.Update name subject content description vars? now).updatedAt = now ∧
    (t.subject ≠ "" → (t.Update name subject content description vars? now).subject ≠ "") := by
  unfold Template.Update
  split_ifs <;> cases vars? <;> simp_all

/-- Witness for C6 at a concrete template and update arguments,
including the non-clearable-subject consequence. -/
theorem c6_update_field_semantics_witness :
    ({ id := 3, name := "n", slug := "sl", subject := "s", content := "c",
       typ := "email", status := "active", vars := ["A"], description := "d",
       createdBy := 9, createdAt := 4, updatedAt := 4 : Template}.Update
        "n2" "" "" "d2" none 11).subject = "s" ∧
    ({ id := 3, name := "n", slug := "sl", subject := "s", content := "c",
       typ := "email", status := "active", vars := ["A"], description := "d",
       createdBy := 9, createdAt := 4, updatedAt := 4 : Template}.Update
        "n2" "" "" "d2" none 11).name = "n2" ∧
    ({ id := 3, name := "n", slug := "sl", subject := "s", content := "c",
       typ := "email", status := "active", vars := ["A"], description := "d",
       createdBy := 9, createdAt := 4, updatedAt := 4 : Template}.Update
        "n2" "" "" "d2" none 11).updatedAt = 11 ∧
    ({ id := 3, name := "n", slug := "sl", subject := "s", content := "c",
       typ := "email", status := "active", vars := ["A"], description := "d",
       createdBy := 9, createdAt := 4, updatedAt := 4 : Template}.Update
        "n2" "" "" "d2" none 11).subject ≠ "" := by
  have h := c6_update_field_semantics
    { id := 3, name := "n", slug := "sl", subject := "s", content := "c",
      typ := "email", status := "active", vars := ["A"], description := "d",
      createdBy := 9, createdAt := 4, updatedAt := 4 : Template}
    "n2" "" "" "d2" none 11
  exact ⟨by simpa using h.2.1, by simpa using h.1, h.2.2.2.2.2.2.2.2.2.2.2.1,
    h.2.2.2.2.2.2.2.2.2.2.2.2 (by decide)⟩

/-! ### C3: missing-variable tolerance -/

/-- A node is simple when it is literal text or a bare interpolation
(no helper-function application). -/
def simpleNode : Node → Bool
  | .text _ => true
  | .action (.interp _) => true
  | .action (.call _ _) => false

/-- A template is simple when all its nodes are. -/
def simpleNodes (ns : List Node) : Bool := ns.all simpleNode

/-- The output of a simple node: text passes through, an interpolation
prints its (escaped) value, with a missing key printing as the empty
string through the nil value lookupVar yields. -/
def simpleNodeOut (vars : VarMap) : Node → String
  | .text s => s
  | .action (.interp a) => stringifyEscaped (evalArg vars a)
  | .action (.call _ _) => ""

/-- Executing a simple template never fails, and produces the
concatenation of the per-node outputs. -/
theorem execNodes_simple (vars : VarMap) :
    ∀ ns : List Node, simpleNodes ns = true →
      execNodes vars ns = some (strConcat (ns.map (simpleNodeOut vars)))
  | [], _ => rfl
  | n :: ns, h => by
    have hsplit : simpleNode n = true ∧ simpleNodes ns = true := by
      have h' := h
      simp only [simpleNodes, List.all_cons, Bool.and_eq_true] at h'
      exact h'
    have hn := hsplit.1
    have hns := hsplit.2
    have ih := execNodes_simple vars ns hns
    cases n with
    | text s => simp [execNodes, execNode, ih, strConcat, simpleNodeOut]
    | action a =>
      cases a with
      | interp arg => simp [execNodes, execNode, ih, strConcat, simpleNodeOut]
      | call fn args => simp [simpleNode] at hn

/-- renderText succeeds on a parsed simple template with the trimmed
concatenated output. -/
theorem renderText_simple {s : String} {ns : List Node} (vars : VarMap)
    (hp : parseTemplate s = some ns) (hs : simpleNodes ns = true) :
    renderText s vars = .ok (goTrimSpace (strConcat (ns.map (simpleNodeOut vars)))) := by
  by_cases he : s = ""
  · subst he
    have : ns = [] := by
      have : (some [] : Option (List Node)) = some ns := hp ▸ rfl
      simpa using this.symm
    subst this
    rfl
  · rw [renderText_parsed he hp vars, execNodes_simple vars ns hs]

/-- renderHTML succeeds on a parsed simple template with the
concatenated output, untrimmed. -/
theorem renderHTML_simple {s : String} {ns : List Node} (vars : VarMap)
    (hp : parseTemplate s = some ns) (hs : simpleNodes ns = true) :
    renderHTML s vars = .ok (strConcat (ns.map (simpleNodeOut vars))) := by
  by_cases he : s = ""
  · subst he
    have : ns = [] := by
      have : (some [] : Option (List Node)) = some ns := hp ▸ rfl
      simpa using this.symm
    subst this
    rfl
  · rw [renderHTML_parsed he hp vars, execNodes_simple vars ns hs]

/-- C3 counterexample: the claim as stated fails on the code.  The
template applying upper to .X is syntactically valid (ValidateTemplate
accepts it), yet Render with a nil variable map fails at execution,
because the missing key yields a value that is not assignable to the
string parameter of the upper helper. -/
theorem c3_counterexample :
    validateTemplate "\x7b\x7bupper .X\x7d\x7d" = .ok () ∧
    Render { id := 0, name := "n", slug := "s", subject := "",
             content := "\x7b\x7bupper .X\x7d\x7d", typ := "email",
             status := "active", vars := [], description := "",
             createdBy := 0, createdAt := 0, updatedAt := 0 } none =
      .error (.contentErr .execErr) := by
  exact ⟨by decide, by decide⟩

/-- C3 (amended): for every syntactically valid template whose actions
are all bare interpolations, Render succeeds with a nil variable map or
any map, and each interpolation of a key missing from the map
contributes the empty string to the output. -/
theorem c3_missing_variable_tolerance :
    (∀ (t : Template) (variables? : Option VarMap) (ns1 ns2 : List Node),
      parseTemplate t.subject = some ns1 → simpleNodes ns1 = true →
      parseTemplate t.content = some ns2 → simpleNodes ns2 = true →
      Render t variables? =
        .ok ⟨goTrimSpace (strConcat (ns1.map (simpleNodeOut (variables?.getD [])))),
             strConcat (ns2.map (simpleNodeOut (variables?.getD []))),
             "text/html"⟩) ∧
    (∀ (vars : VarMap) (f : String), vars.find? (fun p => p.1 == f) = none →
      execNode vars (.action (.interp (.field f))) = some "") := by
  constructor
  · intro t variables? ns1 ns2 hp1 hs1 hp2 hs2
    simp only [Render]
    rw [renderText_simple (variables?.getD []) hp1 hs1,
      renderHTML_simple (variables?.getD []) hp2 hs2]
  · intro vars f h
    simp [execNode, evalArg, lookupVar, h, stringifyEscaped]

/-- Witness for the amended C3 on the repository's own missing-variable
test case: subject and content referencing .Name, rendered against a
nil variable map. -/
theorem c3_missing_variable_tolerance_witness :
    Render { id := 0, name := "n", slug := "s",
             subject := "Hello \x7b\x7b.Name\x7d\x7d",
             content := "<p>Hello \x7b\x7b.Name\x7d\x7d</p>", typ := "email",
             status := "active", vars := [], description := "",
             createdBy := 0, createdAt := 0, updatedAt := 0 } none =
      .ok ⟨"Hello", "<p>Hello </p>", "text/html"⟩ ∧
    execNode [] (.action (.interp (.field "Name"))) = some "" := by
  constructor
  · have h := c3_missing_variable_tolerance.1
      { id := 0, name := "n", slug := "s",
        subject := "Hello \x7b\x7b.Name\x7d\x7d",
        content := "<p>Hello \x7b\x7b.Name\x7d\x7d</p>", typ := "email",
        status := "active", vars := [], description := "",
        createdBy := 0, createdAt := 0, updatedAt := 0 } none
      [.text "Hello ", .action (.interp (.field "Name"))]
      [.text "<p>Hello ", .action (.interp (.field "Name")), .text "</p>"]
      (by decide) (by decide) (by decide) (by decide)
    rw [h]
    decide
  · exact c3_missing_variable_tolerance.2 [] "Name" rfl

/-! ### C7: application-layer status gating -/

/-- C7: after a successful lookup by id or slug, a non-active template
makes the handler return the Forbidden-kind ErrTemplateInactive error,
independently of the injected renderer (so the renderer is not
invoked); and the renderer's own Render ignores the status field
entirely. -/
theorem c7_status_gating :
    (∀ (getByID : Int → Except SysErr Template)
       (getBySlug : String → Except SysErr Template)
       (render1 render2 : Template → Option VarMap → Except RenderError RenderedTemplate)
       (q : RenderTemplateQuery) (t : Template),
      ((∃ i, q.templateID = some i ∧ getByID i = .ok t) ∨
        (q.templateID = none ∧ ∃ s, q.templateSlug = some s ∧ getBySlug s = .ok t)) →
      t.status ≠ TemplateStatusActive →
      handleRenderTemplate getByID getBySlug render1 q = .error ErrTemplateInactive ∧
      handleRenderTemplate getByID getBySlug render1 q =
        handleRenderTemplate getByID getBySlug render2 q) ∧
    ErrTemplateInactive.code = SysErrCode.forbidden ∧
    (∀ (t : Template) (st : String) (variables? : Option VarMap),
      Render { t with status := st } variables? = Render t variables?) := by
  refine ⟨?_, rfl, fun t st variables? => rfl⟩
  intro getByID getBySlug render1 render2 q t hlook hst
  have hia : t.IsActive = false := by
    simp [Template.IsActive, hst]
  have hforb : ∀ (render : Template → Option VarMap → Except RenderError RenderedTemplate)
      (v : Option VarMap), afterLookup render v (.ok t) = .error ErrTemplateInactive := by
    intro render v
    simp [afterLookup, hia]
  rcases hlook with ⟨i, hqi, hget⟩ | ⟨hqi, s, hqs, hget⟩
  · rcases q with ⟨tid, tslug, qvars⟩
    simp only at hqi
    subst hqi
    constructor
    · simp only [handleRenderTemplate]
      rw [hget]
      exact hforb render1 _
    · simp only [handleRenderTemplate]
      rw [hget, hforb render1 _, hforb render2 _]
  · rcases q with ⟨tid, tslug, qvars⟩
    simp only at hqi hqs
    subst hqi
    subst hqs
    constructor
    · simp only [handleRenderTemplate]
      rw [hget]
      exact hforb render1 _
    · simp only [handleRenderTemplate]
      rw [hget, hforb render1 _, hforb render2 _]

/-- A concrete draft-status template served by a stub repository, used
to exhibit the handler's status gating. -/
def draftExemplar : Template :=
  { id := 5, name := "n", slug := "sl", subject := "s", content := "c",
    typ := "email", status := "draft", vars := [], description := "",
    createdBy := 0, createdAt := 0, updatedAt := 0 }

/-- Witness for C7: a concrete inactive (draft) template fetched by id
makes the handler refuse with ErrTemplateInactive for two different
renderers. -/
theorem c7_status_gating_witness :
    handleRenderTemplate (fun _ => .ok draftExemplar)
      (fun _ => .error ErrTemplateNotFound) Render
      ⟨some 5, none, none⟩ = .error ErrTemplateInactive ∧
    handleRenderTemplate (fun _ => .ok draftExemplar)
      (fun _ => .error ErrTemplateNotFound) Render
      ⟨some 5, none, none⟩ =
    handleRenderTemplate (fun _ => .ok draftExemplar)
      (fun _ => .error ErrTemplateNotFound)
      (fun _ _ => .error (.subjectErr .parseErr))
      ⟨some 5, none, none⟩ :=
  c7_status_gating.1 (fun _ => .ok draftExemplar)
    (fun _ => .error ErrTemplateNotFound) Render
    (fun _ _ => .error (.subjectErr .parseErr))
    ⟨some 5, none, none⟩ draftExemplar
    (Or.inl ⟨5, rfl, rfl⟩) (by decide)

/-! ### C9: repository List semantics -/

/-- The claim-side filter predicate: type, status and createdBy as
exact matches, and a non-empty search matched case-insensitively as a
substring of name OR description OR slug, AND-combined with the
others. -/
def matchesSpec (f : ListTemplateFilters) (t : Template) : Bool :=
  (match f.type? with | some ty => t.typ == ty | none => true) &&
  (match f.status? with | some st => t.status == st | none => true) &&
  (match f.createdBy? with | some cb => t.createdBy == cb | none => true) &&
  (f.search == "" ||
    (ilikeSub t.name f.search || ilikeSub t.description f.search ||
     ilikeSub t.slug f.search))

instance : IsTotal Template createdDesc :=
  ⟨fun a b => le_total b.createdAt a.createdAt⟩

instance : IsTrans Template createdDesc :=
  ⟨fun _ _ _ hab hbc => le_trans hbc hab⟩

/-- Prefix comparison against the empty text holds only for the empty
pattern. -/
theorem listPrefixEq_nil_right (x : List Char) : listPrefixEq x [] = x.isEmpty := by
  cases x <;> rfl

/-- A lone percent wildcard matches every text, given enough fuel. -/
theorem likeMatch_percent (text : List Char) :
    ∀ fuel, text.length + 1 < fuel → likeMatchAux fuel ['%'] text = true := by
  induction text with
  | nil =>
    intro fuel h
    cases fuel with
    | zero => exact absurd h (by omega)
    | succ f =>
      cases f with
      | zero => exact absurd h (by omega)
      | succ g => simp [likeMatchAux]
  | cons c rest ih =>
    intro fuel h
    cases fuel with
    | zero => exact absurd h (by omega)
    | succ f =>
      have hb : rest.length + 1 < f := by
        simp only [List.length_cons] at h
        omega
      simp [likeMatchAux, ih f hb]

/-- A wildcard-free literal followed by a percent matches a text
exactly when the literal is a case-insensitive prefix of it. -/
theorem likeMatch_lit_percent :
    ∀ (lit : List Char), lit.all (fun c => !(isLikeWildcard c)) = true →
    ∀ (text : List Char) (fuel : Nat), lit.length + text.length + 2 < fuel →
      likeMatchAux fuel (lit ++ ['%']) text =
        listPrefixEq (lit.map asciiLowerChar) (text.map asciiLowerChar) := by
  intro lit
  induction lit with
  | nil =>
    intro _ text fuel h
    simp only [List.nil_append, List.map_nil]
    rw [likeMatch_percent text fuel (by omega)]
    rfl
  | cons p ps ih =>
    intro hall text fuel h
    have hsplit : (!(isLikeWildcard p)) = true ∧
        ps.all (fun c => !(isLikeWildcard c)) = true := by
      have h' := hall
      simp only [List.all_cons, Bool.and_eq_true] at h'
      exact h'
    have hpw : isLikeWildcard p = false := by
      have := hsplit.1
      simp at this
      exact this
    have hp37 : ¬ p.toNat = 37 := by
      intro hc
      simp [isLikeWildcard, hc] at hpw
    have hp95 : ¬ p.toNat = 95 := by
      intro hc
      simp [isLikeWildcard, hc] at hpw
    have hp92 : ¬ p.toNat = 92 := by
      intro hc
      simp [isLikeWildcard, hc] at hpw
    cases fuel with
    | zero => exact absurd h (by omega)
    | succ f =>
      cases text with
      | nil => simp [likeMatchAux, hp37, hp95, hp92, listPrefixEq]
      | cons c text2 =>
        have hb : ps.length + text2.length + 2 < f := by
          simp only [List.length_cons] at h
          omega
        simp [likeMatchAux, hp37, hp95, hp92, charCIEq,
          ih hsplit.2 text2 f hb, listPrefixEq]

/-- A percent-wrapped wildcard-free literal matches a text exactly when
the literal is a case-insensitive substring of it. -/
theorem likeMatch_sub (lit : List Char)
    (hall : lit.all (fun c => !(isLikeWildcard c)) = true) :
    ∀ (text : List Char) (fuel : Nat), lit.length + text.length + 3 < fuel →
      likeMatchAux fuel ('%' :: (lit ++ ['%'])) text =
        listSubEq (lit.map asciiLowerChar) (text.map asciiLowerChar) := by
  intro text
  induction text with
  | nil =>
    intro fuel h
    cases fuel with
    | zero => exact absurd h (by omega)
    | succ f =>
      simp only [likeMatchAux]
      rw [likeMatch_lit_percent lit hall [] f (by omega)]
      simp [listPrefixEq_nil_right, listSubEq]
  | cons c text2 ih =>
    intro fuel h
    cases fuel with
    | zero => exact absurd h (by omega)
    | succ f =>
      have h1 : lit.length + (c :: text2).length + 2 < f := by
        simp only [List.length_cons] at h ⊢
        omega
      have h2 : lit.length + text2.length + 3 < f := by
        simp only [List.length_cons] at h
        omega
      simp only [likeMatchAux]
      rw [likeMatch_lit_percent lit hall (c :: text2) f h1]
      simp [ih f h2, listSubEq]

/-- For a wildcard-free search term, the SQL ILIKE condition List
builds is exactly case-insensitive substring containment. -/
theorem ilikeCond_wildcardFree (col search : String)
    (hw : wildcardFree search = true) :
    ilikeCond col search = ilikeSub col search := by
  have hdata : ("%" ++ search ++ "%").data = '%' :: (search.data ++ ['%']) := by
    have h1 : ("%" ++ search ++ "%").data = '%' :: search.data ++ ['%'] := rfl
    simp [h1]
  unfold ilikeCond goILike
  rw [hdata]
  rw [likeMatch_sub search.data hw col.data _ (by simp; omega)]
  rfl

/-- For a wildcard-free search, the WHERE clause List builds is
pointwise the claim-side filter predicate. -/
theorem wherePred_eq_matchesSpec (f : ListTemplateFilters)
    (hw : wildcardFree f.search = true) :
    wherePred f = matchesSpec f := by
  funext t
  have hlike : ∀ col, ilikeCond col f.search = ilikeSub col f.search :=
    fun col => ilikeCond_wildcardFree col f.search hw
  unfold wherePred listConds matchesSpec
  by_cases hs : f.search = ""
  · have h' : (f.search == "") = true := by simp [hs]
    cases f.type? <;> cases f.status? <;> cases f.createdBy? <;>
      simp [hs, h', List.all_append, Bool.and_assoc]
  · have h' : (f.search == "") = false := by simp [hs]
    cases f.type? <;> cases f.status? <;> cases f.createdBy? <;>
      simp [hs, h', hlike, List.all_append, Bool.and_assoc]

/-- A stored template used by the List counterexample and witness: an
older row that a substring search for BET does not match, containing
no underscore in name, description or slug. -/
def listedAlpha : Template :=
  { id := 1, name := "Alpha", slug := "alpha", subject := "", content := "c",
    typ := "email", status := "active", vars := [], description := "first",
    createdBy := 1, createdAt := 1, updatedAt := 1 }

/-- A stored template used by the List witness: a newer row whose name
matches the search case-insensitively. -/
def listedBeta : Template :=
  { id := 2, name := "Beta", slug := "beta-slug", subject := "", content := "c",
    typ := "email", status := "active", vars := [], description := "second",
    createdBy := 1, createdAt := 2, updatedAt := 2 }

/-- C9 counterexample: the claim as stated fails on the code.  The
search term is embedded unescaped into the ILIKE pattern, so its LIKE
wildcards keep their meaning: searching for a lone underscore returns
the stored Alpha row (and counts it in the total), although an
underscore is not a substring of its name, description or slug. -/
theorem c9_counterexample :
    matchesSpec ⟨none, none, none, "_"⟩ listedAlpha = false ∧
    (listTemplates [listedAlpha] ⟨none, none, none, "_"⟩ ⟨1, 10, 0⟩).1 =
      [listedAlpha] ∧
    (listTemplates [listedAlpha] ⟨none, none, none, "_"⟩ ⟨1, 10, 0⟩).2.total = 1 := by
  refine ⟨by decide, by decide, by decide⟩

/-- C9 (amended): for every filter combination whose search term is
free of LIKE wildcards and escape characters, and every paging value
with page at least 1, List returns exactly the window of the matching
templates: the built WHERE clause coincides with the claimed filter
semantics (exact matches AND a case-insensitive substring search over
name, description, slug), the caller's paging structure receives the
total count of matching rows ignoring the window, the returned rows
are the matching rows ordered by creation time descending then
windowed by limit/offset, every returned row matches and comes from
the store, the result is sorted descending, its length is bounded by
the limit, and no match yields an empty list (with total zero), not an
error.  A search term containing a percent, underscore or backslash is
interpreted by the code as a LIKE pattern fragment, not as a literal
substring. -/
theorem c9_list_semantics (db : List Template) (f : ListTemplateFilters)
    (paging : Paging) (hw : wildcardFree f.search = true)
    (_hpage : 1 ≤ paging.page) :
    (∀ t, wherePred f t = matchesSpec f t) ∧
    (listTemplates db f paging).2 =
      { paging with total := (db.filter (matchesSpec f)).length } ∧
    (listTemplates db f paging).1 =
      ((List.insertionSort createdDesc (db.filter (matchesSpec f))).drop
        paging.getOffset).take paging.limit ∧
    (∀ t ∈ (listTemplates db f paging).1, matchesSpec f t = true ∧ t ∈ db) ∧
    List.Sorted createdDesc (listTemplates db f paging).1 ∧
    (listTemplates db f paging).1.length ≤ paging.limit ∧
    ((∀ t ∈ db, matchesSpec f t = false) →
      (listTemplates db f paging).1 = [] ∧ (listTemplates db f paging).2.total = 0) := by
  have hfe : wherePred f = matchesSpec f := wherePred_eq_matchesSpec f hw
  have hfilter : db.filter (wherePred f) = db.filter (matchesSpec f) := by rw [hfe]
  refine ⟨fun t => by rw [hfe], ?_, ?_, ?_, ?_, ?_, ?_⟩
  · simp [listTemplates, hfilter]
  · simp [listTemplates, hfilter]
  · intro t ht
    simp only [listTemplates] at ht
    have h1 : t ∈ List.insertionSort createdDesc (db.filter (wherePred f)) :=
      List.drop_subset _ _ (List.take_subset _ _ ht)
    have h2 : t ∈ db.filter (wherePred f) :=
      ((List.perm_insertionSort createdDesc _).mem_iff).mp h1
    have h3 := List.mem_filter.mp h2
    exact ⟨by rw [← hfe]; exact h3.2, h3.1⟩
  · simp only [listTemplates]
    exact List.Pairwise.sublist
      ((List.take_sublist _ _).trans (List.drop_sublist _ _))
      (List.sorted_insertionSort createdDesc (db.filter (wherePred f)))
  · simp only [listTemplates]
    exact List.length_take_le _ _
  · intro h
    have hnil : db.filter (matchesSpec f) = [] := by
      rw [List.filter_eq_nil_iff]
      intro a ha
      simp [h a ha]
    constructor
    · simp [listTemplates, hfilter, hnil]
    · simp [listTemplates, hfilter, hnil]

/-- Witness for C9: searching for BET among the two stored templates
returns only the Beta row and writes total 1 into the paging value. -/
theorem c9_list_semantics_witness :
    (listTemplates [listedAlpha, listedBeta] ⟨none, none, none, "BET"⟩
      ⟨1, 10, 0⟩).2.total = 1 ∧
    (listTemplates [listedAlpha, listedBeta] ⟨none, none, none, "BET"⟩
      ⟨1, 10, 0⟩).1 = [listedBeta] := by
  have h := c9_list_semantics [listedAlpha, listedBeta] ⟨none, none, none, "BET"⟩
    ⟨1, 10, 0⟩ (by decide) (by decide)
  constructor
  · rw [h.2.1]
    decide
  · rw [h.2.2.1]
    decide

/-! ### C10: repository Update frame -/

/-- C10: repository Update overwrites the in-memory aggregate's
UpdatedAt with the current time (discarding any caller-set value),
and for every stored row the id, slug, type, created_by and created_at
columns are untouched: a non-targeted row is fully unchanged and the
targeted row receives exactly the SET-clause columns; when no row has
the aggregate's id the call reports NotFound. -/
theorem c10_repo_update_frame (db : List Template) (t : Template) (now : Int) :
    (repoUpdate db t now).2.1 = { t with updatedAt := now } ∧
    List.Forall₂ (fun row row2 =>
      row2.id = row.id ∧ row2.slug = row.slug ∧ row2.typ = row.typ ∧
      row2.createdBy = row.createdBy ∧ row2.createdAt = row.createdAt ∧
      (row.id ≠ t.id → row2 = row) ∧
      (row.id = t.id → row2 = updateRowSet { t with updatedAt := now } now row))
      db (repoUpdate db t now).1 ∧
    ((∀ row ∈ db, row.id ≠ t.id) →
      (repoUpdate db t now).2.2 = .error ErrTemplateNotFound) := by
  refine ⟨rfl, ?_, ?_⟩
  · simp only [repoUpdate]
    rw [List.forall₂_map_right_iff, List.forall₂_same]
    intro row hrow
    by_cases hid : row.id = t.id
    · simp [hid, updateRowSet]
    · simp [hid, updateRowSet]
  · intro h
    simp only [repoUpdate]
    have hcount : db.countP (fun row => row.id == t.id) = 0 := by
      rw [List.countP_eq_zero]
      intro a ha
      simp [h a ha]
    simp [hcount]

/-- A stored row not targeted by the Update witness call. -/
def storedOther : Template :=
  { id := 8, name := "other", slug := "other-slug", subject := "", content := "c",
    typ := "sms", status := "active", vars := [], description := "",
    createdBy := 2, createdAt := 3, updatedAt := 3 }

/-- Witness for C10: updating an aggregate whose id matches no stored
row overwrites its UpdatedAt in memory and reports NotFound. -/
theorem c10_repo_update_frame_witness :
    (repoUpdate [storedOther]
      { id := 5, name := "n", slug := "sl", subject := "s", content := "c",
        typ := "email", status := "draft", vars := [], description := "",
        createdBy := 0, createdAt := 0, updatedAt := 77 } 9).2.1 =
      { id := 5, name := "n", slug := "sl", subject := "s", content := "c",
        typ := "email", status := "draft", vars := [], description := "",
        createdBy := 0, createdAt := 0, updatedAt := 9 } ∧
    (repoUpdate [storedOther]
      { id := 5, name := "n", slug := "sl", subject := "s", content := "c",
        typ := "email", status := "draft", vars := [], description := "",
        createdBy := 0, createdAt := 0, updatedAt := 77 } 9).2.2 =
      .error ErrTemplateNotFound := by
  have h := c10_repo_update_frame [storedOther]
    { id := 5, name := "n", slug := "sl", subject := "s", content := "c",
      typ := "email", status := "draft", vars := [], description := "",
      createdBy := 0, createdAt := 0, updatedAt := 77 } 9
  exact ⟨h.1, h.2.2 (by decide)⟩

end Tixgo
